import Mathlib

/-!
# Verification of `serviceLoader` (src/lib/serviceLoader.js)

A shallow embedding of the process lifecycle orchestrator: the chainable
configuration facade, the startup sequencer (`chain.done`), the database and
host-ping health monitors (`checkDb`, `pingHosts`), and the graceful-shutdown
coordinator (`closeGracefully` / `exitProcess`).

Durations are in milliseconds (`Nat`), matching the JavaScript source.
External collaborators (knex, amqplib, redis, express, the OS network stack)
are modelled at their interface boundary: a probe or teardown closure is
represented by its observable outcome, not by its implementation.
-/

namespace ServiceLoader

/-- JavaScript values as far as the facade's argument validation inspects
them: the source only asks for truthiness (`!x`) and `Array.isArray(x)`. -/
inductive JsVal where
  | undef
  | nullv
  | str (s : String)
  | arr (xs : List String)
  | obj
  | fn
  deriving DecidableEq, Repr

/-- JavaScript truthiness for the values of `JsVal`: `undefined` and `null`
are falsy, a string is falsy iff empty, arrays, objects and functions are
truthy. -/
def JsVal.truthy : JsVal → Bool
  | .undef => false
  | .nullv => false
  | .str s => !s.isEmpty
  | .arr _ => true
  | .obj => true
  | .fn => true

/-- `Array.isArray`. -/
def JsVal.isArray : JsVal → Bool
  | .arr _ => true
  | _ => false

/-- `exitProcess(signal)` (lines 16-20): the exit code is 0 when the signal
matches `/^SIG/` — i.e. the characters `SIG` are a prefix of the signal
string — and 1 otherwise. -/
def exitCode (signal : String) : Nat :=
  if "SIG".data.isPrefixOf signal.data then 0 else 1

/-- The teardown closures `closeGracefully` can push onto `actions`
(lines 64-91): destroy the knex pool, close the AMQ connection, close the
HTTP server, run the user `onExit` hook (hooks are identified by a `Nat`). -/
inductive TeardownAction where
  | dbDestroy
  | amqClose
  | httpClose
  | exitHook (h : Nat)
  deriving DecidableEq, Repr

/-- The mutable closure state of one `serviceLoader()` instance
(lines 33-53), plus ghost observation fields (`teardownCount`, `triggers`,
`ranActions`, `logs`) recording what the side-effecting code did:
how many times `closeGracefully` actually performed teardown, which signals
it tore down for, which teardown closures it pushed, and the log lines
emitted by the monitors. -/
structure St where
  timeouts : List (String × Nat)
  waitingForExit : Bool
  countCustom : Nat
  dbFailureCount : Nat
  dbFailureMax : Nat
  dbFrequency : Nat
  dbFailing : Bool
  pingFailureCount : Nat
  pingFailureMax : Nat
  pingFrequency : Nat
  pingFailing : Option String
  knexObject : Bool
  httpServer : Bool
  onExitPromise : Option Nat
  promiseOrder : List String
  teardownCount : Nat
  triggers : List String
  ranActions : List TeardownAction
  logs : List String
  deriving DecidableEq, Repr

/-- `dbReadiness` (line 38). -/
def dbReadiness : Nat := 10000

/-- `pingReadiness` (line 39). -/
def pingReadiness : Nat := 10000

/-- Fresh state of `serviceLoader()` right after the closure variables are
initialised (lines 36-53): no timers, latch down, `countCustom = 1`,
db failure ceiling 8 at 20 s frequency, ping failure ceiling 8 at 30 s
frequency, no knex object, no HTTP server, no exit hook, empty registry. -/
def initSt : St where
  timeouts := []
  waitingForExit := false
  countCustom := 1
  dbFailureCount := 0
  dbFailureMax := 8
  dbFrequency := 20000
  dbFailing := false
  pingFailureCount := 0
  pingFailureMax := 8
  pingFrequency := 30000
  pingFailing := none
  knexObject := false
  httpServer := false
  onExitPromise := none
  promiseOrder := []
  teardownCount := 0
  triggers := []
  ranActions := []
  logs := []

/-- `timeouts[k] = setTimeout(..., d)`: assignment into the keyed `timeouts`
object overwrites any previous timer stored under the same key. -/
def setT (k : String) (d : Nat) (ts : List (String × Nat)) : List (String × Nat) :=
  (k, d) :: ts.filter (fun p => p.1 ≠ k)

/-- The list of teardown closures `closeGracefully` builds (lines 64-91):
`knexObject` and `httpServer` are closure variables tested for truthiness,
and the `onExit` hook is pushed when registered; but the AMQ branch tests
`if (amq)` where `amq` is the module imported on line 10
(`const amq = require('./amq')`), which is always truthy, so the AMQ close
closure is pushed unconditionally. -/
def closeActions (s : St) : List TeardownAction :=
  (if s.knexObject then [.dbDestroy] else []) ++
  [.amqClose] ++
  (if s.httpServer then [.httpClose] else []) ++
  (match s.onExitPromise with
   | some h => [.exitHook h]
   | none => [])

/-- `closeGracefully(signal)` (lines 55-109): if the `waitingForExit` latch
is up, return immediately; otherwise clear every registered timeout, build
the teardown closures and launch them (recorded in the ghost fields), and
arm the 10 s force-exit timer. The timing race between the teardown
closures and the force timer is modelled separately by `shutdownExit`. -/
def closeGracefully (signal : String) (s : St) : St :=
  if s.waitingForExit then s
  else
    { s with
      timeouts := []
      teardownCount := s.teardownCount + 1
      triggers := s.triggers ++ [signal]
      ranActions := s.ranActions ++ closeActions s }

/-- One shutdown trigger event as it occurs in the source: every call site
of `closeGracefully` (the signal handlers on lines 269-276, the monitor
escalations on lines 133-134 and 160-161) executes
`closeGracefully(signal); waitingForExit = true;` synchronously within a
single event-loop turn, so the pair is one atomic step. -/
def triggerShutdown (signal : String) (s : St) : St :=
  let s1 := closeGracefully signal s
  { s1 with waitingForExit := true }

/-- A sequence of shutdown trigger events applied in order. -/
def runTriggers (s : St) : List String → St
  | [] => s
  | sig :: rest => runTriggers (triggerShutdown sig s) rest

theorem triggerShutdown_of_waiting {s : St} (h : s.waitingForExit = true)
    (sig : String) : triggerShutdown sig s = s := by
  simp only [triggerShutdown, closeGracefully, h, if_pos]
  cases s
  simp_all

theorem runTriggers_of_waiting {s : St} (h : s.waitingForExit = true) :
    ∀ sigs, runTriggers s sigs = s := by
  intro sigs
  induction sigs with
  | nil => rfl
  | cons sig rest ih =>
      rw [runTriggers, triggerShutdown_of_waiting h]
      exact ih

/-- C1 — Shutdown is idempotent: starting from any state in which the
`waitingForExit` latch is down, a nonempty sequence of shutdown trigger
calls with arbitrary reasons behaves exactly like its first call alone:
the first call performs teardown (clears all timers, runs the teardown
closures, records the reason) and raises the latch, every subsequent call
leaves the state untouched, and teardown is performed exactly once. -/
theorem shutdown_idempotent (s : St) (sig : String) (rest : List String)
    (h : s.waitingForExit = false) :
    runTriggers s (sig :: rest) = triggerShutdown sig s ∧
    (triggerShutdown sig s).teardownCount = s.teardownCount + 1 ∧
    (triggerShutdown sig s).timeouts = [] ∧
    (triggerShutdown sig s).triggers = s.triggers ++ [sig] ∧
    (triggerShutdown sig s).ranActions = s.ranActions ++ closeActions s ∧
    (runTriggers s (sig :: rest)).teardownCount = s.teardownCount + 1 := by
  have hfirst : triggerShutdown sig s =
      { closeGracefully sig s with waitingForExit := true } := rfl
  have hlatch : (triggerShutdown sig s).waitingForExit = true := by
    simp [triggerShutdown]
  have hrun : runTriggers s (sig :: rest) = triggerShutdown sig s := by
    rw [runTriggers, runTriggers_of_waiting hlatch]
  refine ⟨hrun, ?_, ?_, ?_, ?_, ?_⟩ <;>
    simp [triggerShutdown, closeGracefully, h, hrun]

/-- Witness for C1: two triggers with different reasons (`SIGTERM` then
`NODB`) from the fresh loader state tear down exactly once. -/
theorem shutdown_idempotent_witness :
    initSt.waitingForExit = false ∧
    (runTriggers initSt ["SIGTERM", "NODB"]).teardownCount =
      initSt.teardownCount + 1 :=
  ⟨by decide, (shutdown_idempotent initSt "SIGTERM" ["NODB"] (by decide)).2.2.2.2.2⟩

/-- Optional monitor overrides `{failureMax?, frequency?}` as read by
`chain.ping` (lines 168-169) and `chain.db` (lines 228-229): a field is
applied only when the option object is present and the field truthy. -/
structure MonOpts where
  failureMax : Option Nat
  frequency : Option Nat
  deriving DecidableEq, Repr

/-- `chain.ping(urlList, options)` (lines 166-175): throws
`'Missing urlList for ping'` when `!urlList || !Array.isArray(urlList)`;
otherwise applies the overrides and schedules `initialPingHosts` after
`pingReadiness` immediately, at configuration time. (The host list itself
is handed to `pingHosts` when the timer fires; the monitor cycle is
modelled by `pingHosts` below.) -/
def chainPing (urlList : JsVal) (options : Option MonOpts) (s : St) :
    Except String St :=
  if !(urlList.truthy && urlList.isArray) then .error "Missing urlList for ping"
  else
    let s1 :=
      match options with
      | some o =>
          { s with
            pingFailureMax := o.failureMax.getD s.pingFailureMax
            pingFrequency := o.frequency.getD s.pingFrequency }
      | none => s
    .ok { s1 with timeouts := setT "initialPingHosts" pingReadiness s1.timeouts }

/-- `chain.cache(redisUrl)` (lines 177-194): throws
`'Missing redisUrl for cache'` when the argument is falsy; otherwise
registers the `cache` startup action. -/
def chainCache (redisUrl : JsVal) (s : St) : Except String St :=
  if !redisUrl.truthy then .error "Missing redisUrl for cache"
  else .ok { s with promiseOrder := s.promiseOrder ++ ["cache"] }

/-- `chain.amq(options)` (lines 196-205): registers the `amq` startup
action. The source performs no validation of `options` at configuration
time — there is no throw in the method body; `options` is only consumed by
`amq.start(options)` when the startup action runs. -/
def chainAmq (_options : JsVal) (s : St) : Except String St :=
  .ok { s with promiseOrder := s.promiseOrder ++ ["amq"] }

/-- `chain.express(expressApp, portRaw)` (lines 207-223): throws
`'Missing expressApp for express'` when the factory is falsy; otherwise
registers the `express` startup action (the `httpServer` variable is only
assigned when that action runs). -/
def chainExpress (expressApp : JsVal) (_portRaw : Option Nat) (s : St) :
    Except String St :=
  if !expressApp.truthy then .error "Missing expressApp for express"
  else .ok { s with promiseOrder := s.promiseOrder ++ ["express"] }

/-- `chain.db(options)` (lines 225-235): applies the monitor overrides,
initialises the knex pool synchronously (`dbLoader.init`;
`knexObject = dbLoader.getKnexObject()`), and schedules `initialCheckDb`
after `dbReadiness` — all at configuration time. No entry is pushed onto
`promiseOrder`, so no startup action is registered for the database.
(The connection-string fallbacks `pgUrl`/`pgDatabase` configure the
external knex collaborator and are not observable here.) -/
def chainDb (options : Option MonOpts) (s : St) : St :=
  let s1 :=
    match options with
    | some o =>
        { s with
          dbFailureMax := o.failureMax.getD s.dbFailureMax
          dbFrequency := o.frequency.getD s.dbFrequency }
    | none => s
  { s1 with
    knexObject := true
    timeouts := setT "initialCheckDb" dbReadiness s1.timeouts }

/-- `chain.then(prm)` (lines 237-243): registers a custom startup action
under the auto-generated name `custom<countCustom>` and increments the
counter. -/
def chainThen (s : St) : St :=
  { s with
    promiseOrder := s.promiseOrder ++ ["custom" ++ toString s.countCustom]
    countCustom := s.countCustom + 1 }

/-- `chain.onExit(prm)` (lines 245-248): stores the hook in the single
`onExitPromise` variable, overwriting any previously registered hook. -/
def chainOnExit (h : Nat) (s : St) : St :=
  { s with onExitPromise := some h }

/-- A sequence of `chain.onExit` registrations applied in order. -/
def runOnExits (s : St) : List Nat → St
  | [] => s
  | h :: rest => runOnExits (chainOnExit h s) rest

/-- Outcome of one probe as observed by the monitor: the query/connect
round-trip either resolves, or rejects with an error whose `message` the
monitor reads. -/
inductive CheckRes where
  | ok
  | fail (msg : String)
  deriving DecidableEq, Repr

/-- What a monitor step schedules next: `next k d` is
`timeouts[k] = setTimeout(..., d)` (a fresh check cycle after `d` ms),
`retry d` is `Promise.delay(d).then(() => check again)` (backoff self-retry),
and `stop` means nothing is scheduled (the escalation path returns without
rescheduling). -/
inductive Sched where
  | next (key : String) (delay : Nat)
  | retry (delay : Nat)
  | stop
  deriving DecidableEq, Repr

/-- The backoff warning logged by `checkDb` (line 129). -/
def dbWarn (c : Nat) : String :=
  "Error connecting to database - " ++ toString c ++ " attempts - retying in "
    ++ toString (2000 * c / 1000) ++ "s..."

/-- `checkDb` (lines 111-137), one check cycle, parametrised by the probe's
outcome. Success resets `dbFailureCount`, clears `dbFailing` and schedules
the next cycle after `dbFrequency`. Failure with
`dbFailureCount < dbFailureMax` increments the counter and retries after
`2000 * dbFailureCount` ms. Otherwise it logs a fatal error, calls
`closeGracefully('NODB')`, raises the latch, and schedules nothing. -/
def checkDb (r : CheckRes) (s : St) : St × Sched :=
  match r with
  | .ok =>
      ({ s with
          dbFailureCount := 0
          dbFailing := false
          timeouts := setT "checkDb" s.dbFrequency s.timeouts },
       .next "checkDb" s.dbFrequency)
  | .fail msg =>
      if s.dbFailureCount < s.dbFailureMax then
        let c := s.dbFailureCount + 1
        ({ s with
            dbFailureCount := c
            dbFailing := true
            logs := s.logs ++ [dbWarn c] },
         .retry (2000 * c))
      else
        let s1 := closeGracefully "NODB"
          { s with logs := s.logs ++ ["Error connecting to database: " ++ msg] }
        ({ s1 with waitingForExit := true }, .stop)

/-- A streak of `n` consecutive failing database probes, following the
source's control flow: a backoff retry runs the next probe, while the
escalation path schedules nothing, so the streak ends there. -/
def dbRun (msg : String) : Nat → St → St
  | 0, s => s
  | n + 1, s =>
      match checkDb (.fail msg) s with
      | (s', .retry _) => dbRun msg n s'
      | (s', _) => s'

/-- One ping cycle's raw results: for each `host:port` target, whether the
TCP connect succeeded. `Promise.all(hostList.map(testHost))` rejects with
`new Error(addr)` of a failing target; in this single-turn model the first
failing target in list order is the one observed. -/
def cycleFailure (results : List (String × Bool)) : Option String :=
  (results.find? (fun p => !p.2)).map (fun p => p.1)

/-- The backoff warning logged by `pingHosts` (line 156). -/
def pingWarn (addr : String) (c : Nat) : String :=
  "Unable to ping " ++ addr ++ " - " ++ toString c ++ " attempts - retying in "
    ++ toString (2000 * c / 1000) ++ "s..."

/-- `pingHosts` (lines 139-164), one check cycle over the target list,
parametrised by each target's connect outcome. The cycle succeeds only if
every target connects: it resets `pingFailureCount`, clears `pingFailing`
and schedules the next cycle after `pingFrequency`. On any single failing
target the whole cycle fails once: below the ceiling the shared counter
increments by 1 and the cycle retries after `2000 * pingFailureCount` ms;
otherwise it logs `Error connecting to <addr>`, calls
`closeGracefully('NOHOST')`, raises the latch, and schedules nothing. -/
def pingHosts (results : List (String × Bool)) (s : St) : St × Sched :=
  match cycleFailure results with
  | none =>
      ({ s with
          pingFailureCount := 0
          pingFailing := none
          timeouts := setT "pingHosts" s.pingFrequency s.timeouts },
       .next "pingHosts" s.pingFrequency)
  | some addr =>
      if s.pingFailureCount < s.pingFailureMax then
        let c := s.pingFailureCount + 1
        ({ s with
            pingFailureCount := c
            pingFailing := some addr
            logs := s.logs ++ [pingWarn addr c] },
         .retry (2000 * c))
      else
        let s1 := closeGracefully "NOHOST"
          { s with logs := s.logs ++ ["Error connecting to " ++ addr] }
        ({ s1 with waitingForExit := true }, .stop)

/-- A streak of `n` consecutive failing ping cycles with the same results,
ending early at escalation just as `dbRun` does. -/
def pingRun (results : List (String × Bool)) : Nat → St → St
  | 0, s => s
  | n + 1, s =>
      match pingHosts results s with
      | (s', .retry _) => pingRun results n s'
      | (s', _) => s'

/-- C7 (counterexample) — `chain.amq(undefined)` on a fresh loader does not
fail at configuration time: it succeeds and registers the `amq` startup
action, so the messageBroker facade method does not validate its required
`options` argument eagerly. -/
theorem amq_no_eager_validation :
    (chainAmq JsVal.undef initSt).isOk = true ∧
    chainAmq JsVal.undef initSt =
      .ok { initSt with promiseOrder := ["amq"] } := by
  constructor <;> rfl

/-- C7 (amended) — eager validation holds for cache, express and ping, but
not for amq: `chain.cache` and `chain.express` throw exactly when their
required argument is falsy, `chain.ping` throws exactly when `urlList` is
missing or not an array, and `chain.amq` never throws at configuration
time (its `options` argument is only consumed when the startup action
runs). -/
theorem isOk_ite_error {ε α : Type} (c : Bool) (e : ε) (a : α) :
    (if c = true then (Except.error e : Except ε α) else Except.ok a).isOk = !c := by
  cases c <;> rfl

theorem eager_validation (v : JsVal) (opts : Option MonOpts)
    (port : Option Nat) (s : St) :
    ((chainCache v s).isOk = false ↔ v.truthy = false) ∧
    ((chainExpress v port s).isOk = false ↔ v.truthy = false) ∧
    ((chainPing v opts s).isOk = false ↔ (v.truthy && v.isArray) = false) ∧
    (chainAmq v s).isOk = true := by
  refine ⟨?_, ?_, ?_, rfl⟩
  · simp only [chainCache]
    rw [isOk_ite_error]
    simp
  · simp only [chainExpress]
    rw [isOk_ite_error]
    simp
  · simp only [chainPing]
    rw [isOk_ite_error]
    simp

/-- Witness for C7: on concrete arguments — an empty URL string for cache,
a missing app factory for express, a non-array for ping — configuration
fails, while `chain.amq(undefined)` succeeds. -/
theorem eager_validation_witness :
    (chainCache (JsVal.str "") initSt).isOk = false ∧
    (chainExpress JsVal.undef none initSt).isOk = false ∧
    (chainPing (JsVal.str "db") none initSt).isOk = false ∧
    (chainAmq JsVal.undef initSt).isOk = true := by
  refine ⟨?_, ?_, ?_, ?_⟩
  · exact (eager_validation (JsVal.str "") none none initSt).1.mpr (by decide)
  · exact (eager_validation JsVal.undef none none initSt).2.1.mpr (by decide)
  · exact (eager_validation (JsVal.str "db") none none initSt).2.2.1.mpr (by decide)
  · exact (eager_validation JsVal.undef none none initSt).2.2.2

/-- C8 (counterexample) — `chain.db` on a fresh loader registers no startup
action in the sequencer: `promiseOrder` stays empty. Instead the knex pool
is initialised at configuration time (`knexObject` is set) and the
monitor's first check is scheduled at configuration time, 10 s later. -/
theorem db_registers_no_startup_action :
    (chainDb none initSt).promiseOrder = [] ∧
    (chainDb none initSt).knexObject = true ∧
    (chainDb none initSt).timeouts = [("initialCheckDb", 10000)] := by
  refine ⟨rfl, rfl, rfl⟩

/-- C8 (amended) — for every prior state and option object, `chain.db`
leaves the sequencer's registry untouched (no startup action), opens the
pool synchronously at configuration time, and schedules the database
monitor's first check `dbReadiness = 10000` ms after the configuration
call, not gated on any startup action succeeding. -/
theorem db_configures_immediately (options : Option MonOpts) (s : St) :
    (chainDb options s).promiseOrder = s.promiseOrder ∧
    (chainDb options s).knexObject = true ∧
    ("initialCheckDb", dbReadiness) ∈ (chainDb options s).timeouts ∧
    dbReadiness = 10000 := by
  cases options <;>
    simp [chainDb, setT, dbReadiness]

/-- C10 — `onExit` registration is last-write-wins: after any nonempty
sequence of `chain.onExit` calls, the stored hook is exactly the last one
registered; on shutdown the teardown closures contain that hook's closure,
and no closure for any earlier hook. -/
theorem onExit_last_write_wins (s : St) (hs : List Nat) (h : hs ≠ []) :
    (runOnExits s hs).onExitPromise = some (hs.getLast h) ∧
    TeardownAction.exitHook (hs.getLast h) ∈ closeActions (runOnExits s hs) ∧
    (∀ k, TeardownAction.exitHook k ∈ closeActions (runOnExits s hs) →
      k = hs.getLast h) := by
  have key : ∀ (hs : List Nat) (s : St) (h : hs ≠ []),
      (runOnExits s hs).onExitPromise = some (hs.getLast h) := by
    intro hs
    induction hs with
    | nil => intro s h; exact absurd rfl h
    | cons a rest ih =>
        intro s h
        cases rest with
        | nil => rfl
        | cons b rest' =>
            rw [runOnExits, ih (chainOnExit a s) (by simp)]
            simp [List.getLast]
  have h1 := key hs s h
  refine ⟨h1, ?_, ?_⟩
  · simp [closeActions, h1]
  · intro k hk
    cases hb1 : (runOnExits s hs).knexObject <;>
      cases hb2 : (runOnExits s hs).httpServer <;>
        simp [closeActions, h1, hb1, hb2] at hk <;>
          exact hk

/-- Witness for C10: registering hooks 7 then 9 retains only hook 9, whose
closure is the one run at shutdown. -/
theorem onExit_last_write_wins_witness :
    ([7, 9] : List Nat) ≠ [] ∧
    (runOnExits initSt [7, 9]).onExitPromise = some 9 ∧
    TeardownAction.exitHook 9 ∈ closeActions (runOnExits initSt [7, 9]) := by
  have h := onExit_last_write_wins initSt [7, 9] (by decide)
  exact ⟨by decide, h.1, h.2.1⟩

/-- C5 — on a fresh loader where no resource was configured and no startup
action ever ran (the registry is empty), the first shutdown trigger still
runs the AMQ close closure: the guard `if (amq)` on line 72 tests the
imported module object, which is always truthy, so the message-broker
teardown does not depend on the broker having been started. The other
guards do depend on state: no database, HTTP or exit-hook closure runs
here. -/
theorem amq_teardown_runs_unconditionally :
    initSt.promiseOrder = [] ∧
    closeActions initSt = [TeardownAction.amqClose] ∧
    (triggerShutdown "SIGTERM" initSt).ranActions = [TeardownAction.amqClose] := by
  refine ⟨rfl, rfl, rfl⟩

theorem dbRun_no_escalation (msg : String) (n : Nat) :
    ∀ s : St, n ≤ s.dbFailureMax - s.dbFailureCount →
      (dbRun msg n s).teardownCount = s.teardownCount ∧
      (dbRun msg n s).triggers = s.triggers := by
  induction n with
  | zero => intro s _; exact ⟨rfl, rfl⟩
  | succ n ih =>
      intro s hn
      have h : s.dbFailureCount < s.dbFailureMax := by omega
      have hred : dbRun msg (n + 1) s =
          dbRun msg n
            { s with
              dbFailureCount := s.dbFailureCount + 1
              dbFailing := true
              logs := s.logs ++ [dbWarn (s.dbFailureCount + 1)] } := by
        simp [dbRun, checkDb, h]
      rw [hred]
      exact ih _ (by simp; omega)

theorem dbRun_escalates (msg : String) (n : Nat) :
    ∀ s : St, s.dbFailureCount ≤ s.dbFailureMax → s.waitingForExit = false →
      s.dbFailureMax - s.dbFailureCount + 1 ≤ n →
      (dbRun msg n s).teardownCount = s.teardownCount + 1 ∧
      (dbRun msg n s).triggers = s.triggers ++ ["NODB"] := by
  induction n with
  | zero => intro s _ _ hn; omega
  | succ n ih =>
      intro s hc hw hn
      by_cases h : s.dbFailureCount < s.dbFailureMax
      · have hred : dbRun msg (n + 1) s =
            dbRun msg n
              { s with
                dbFailureCount := s.dbFailureCount + 1
                dbFailing := true
                logs := s.logs ++ [dbWarn (s.dbFailureCount + 1)] } := by
          simp [dbRun, checkDb, h]
        rw [hred]
        exact ih _ (by simp; omega) (by simp [hw]) (by simp; omega)
      · have hred : dbRun msg (n + 1) s =
            { closeGracefully "NODB"
                { s with
                  logs := s.logs ++ ["Error connecting to database: " ++ msg] } with
              waitingForExit := true } := by
          simp [dbRun, checkDb, h]
        rw [hred]
        simp [closeGracefully, hw]

/-- C2 (amended) — from a fresh monitor state (failure count 0, latch down,
ceiling `failureMax`), a streak of consecutive probe failures escalates on
the `(failureMax + 1)`-th failure, because the pre-increment counter is
compared against the ceiling: a streak of at most `failureMax` failures
performs no teardown and fires no trigger, while a streak reaching
`failureMax + 1` failures performs teardown exactly once with the single
trigger reason `NODB`, however long the streak. Below the ceiling a failing
check schedules only a backoff retry, and at escalation the monitor
schedules nothing, so it never self-resumes. -/
theorem db_escalation (msg : String) (fmax n : Nat) (s : St)
    (hc : s.dbFailureCount = 0) (hm : s.dbFailureMax = fmax)
    (hw : s.waitingForExit = false) :
    (fmax + 1 ≤ n →
      (dbRun msg n s).teardownCount = s.teardownCount + 1 ∧
      (dbRun msg n s).triggers = s.triggers ++ ["NODB"]) ∧
    (n ≤ fmax →
      (dbRun msg n s).teardownCount = s.teardownCount ∧
      (dbRun msg n s).triggers = s.triggers) ∧
    (∀ s' : St, s'.dbFailureCount < s'.dbFailureMax →
      (checkDb (.fail msg) s').2 = .retry (2000 * (s'.dbFailureCount + 1))) ∧
    (∀ s' : St, s'.dbFailureMax ≤ s'.dbFailureCount →
      (checkDb (.fail msg) s').2 = .stop) := by
  refine ⟨?_, ?_, ?_, ?_⟩
  · intro hn
    exact dbRun_escalates msg n s (by omega) hw (by omega)
  · intro hn
    exact dbRun_no_escalation msg n s (by omega)
  · intro s' h
    simp [checkDb, h]
  · intro s' h
    simp [checkDb, Nat.not_lt.mpr h]

/-- Witness for C2: `failureMax = 2` configured through `chain.db`; a streak
of 3 failures tears down once with reason `NODB`, a streak of 2 does not. -/
theorem db_escalation_witness :
    (dbRun "down" 3 (chainDb (some ⟨some 2, none⟩) initSt)).teardownCount = 1 ∧
    (dbRun "down" 3 (chainDb (some ⟨some 2, none⟩) initSt)).triggers = ["NODB"] ∧
    (dbRun "down" 2 (chainDb (some ⟨some 2, none⟩) initSt)).teardownCount = 0 := by
  have h3 := (db_escalation "down" 2 3 (chainDb (some ⟨some 2, none⟩) initSt)
      rfl rfl rfl).1 (by norm_num)
  have h2 := (db_escalation "down" 2 2 (chainDb (some ⟨some 2, none⟩) initSt)
      rfl rfl rfl).2.1 (by norm_num)
  refine ⟨?_, ?_, ?_⟩
  · simpa using h3.1
  · simpa using h3.2
  · simpa using h2.1

/-- C2 (counterexample) — with `failureMax = 1` configured through
`chain.db`, after exactly 1 consecutive probe failure nothing has
escalated: no teardown ran and no trigger fired (the counter was 0 < 1, so
the monitor retried with backoff); escalation needs a second failure. -/
theorem db_escalation_counterexample :
    (chainDb (some ⟨some 1, none⟩) initSt).dbFailureMax = 1 ∧
    (dbRun "down" 1 (chainDb (some ⟨some 1, none⟩) initSt)).teardownCount = 0 ∧
    (dbRun "down" 1 (chainDb (some ⟨some 1, none⟩) initSt)).triggers = [] ∧
    (dbRun "down" 2 (chainDb (some ⟨some 1, none⟩) initSt)).teardownCount = 1 := by
  refine ⟨rfl, ?_, ?_, ?_⟩ <;> rfl

/-- C9 — within a failure streak of either monitor, the backoff delay is
`2000` ms times the just-incremented failure count, hence monotonically
non-decreasing as the count grows; one successful check resets the count to
0 and schedules the next cycle at the monitor's base frequency. -/
theorem backoff_linear_reset (s : St) (msg addr : String)
    (results results' : List (String × Bool)) :
    (s.dbFailureCount < s.dbFailureMax →
      (checkDb (.fail msg) s).1.dbFailureCount = s.dbFailureCount + 1 ∧
      (checkDb (.fail msg) s).2 = .retry (2000 * (s.dbFailureCount + 1))) ∧
    (cycleFailure results = some addr → s.pingFailureCount < s.pingFailureMax →
      (pingHosts results s).1.pingFailureCount = s.pingFailureCount + 1 ∧
      (pingHosts results s).2 = .retry (2000 * (s.pingFailureCount + 1))) ∧
    (∀ c c' : Nat, c ≤ c' → 2000 * c ≤ 2000 * c') ∧
    ((checkDb .ok s).1.dbFailureCount = 0 ∧
      (checkDb .ok s).2 = .next "checkDb" s.dbFrequency) ∧
    (cycleFailure results' = none →
      (pingHosts results' s).1.pingFailureCount = 0 ∧
      (pingHosts results' s).2 = .next "pingHosts" s.pingFrequency) := by
  refine ⟨?_, ?_, ?_, ?_, ?_⟩
  · intro h
    constructor <;> simp [checkDb, h]
  · intro hf h
    constructor <;> simp [pingHosts, hf, h]
  · intro c c' h
    omega
  · constructor <;> simp [checkDb]
  · intro hf
    constructor <;> simp [pingHosts, hf]

/-- Witness for C9: a database monitor that has already failed 3 times
(ceiling 8) retries after `2000 * 4` ms; a failed ping cycle from the fresh
state retries after `2000 * 1` ms; a clean cycle resets and reschedules at
the base frequency. -/
theorem backoff_linear_reset_witness :
    (checkDb (.fail "down") { initSt with dbFailureCount := 3 }).2 =
      .retry 8000 ∧
    (pingHosts [("a:1", false)] initSt).2 = .retry 2000 ∧
    (checkDb .ok { initSt with dbFailureCount := 3 }).2 = .next "checkDb" 20000 ∧
    (pingHosts [("a:1", true)] initSt).2 = .next "pingHosts" 30000 := by
  have h := backoff_linear_reset { initSt with dbFailureCount := 3 } "down" "a:1"
    [("a:1", false)] [("a:1", true)]
  have h' := backoff_linear_reset initSt "down" "a:1"
    [("a:1", false)] [("a:1", true)]
  refine ⟨?_, ?_, ?_, ?_⟩
  · simpa using (h.1 (by decide)).2
  · simpa using (h'.2.1 (by decide) (by decide)).2
  · simpa using h.2.2.2.1.2
  · simpa using (h.2.2.2.2 (by decide)).2

/-- C6 (amended) — a ping cycle in which any target fails (however many of
the N targets fail) is recorded as exactly one failure of the shared
counter: below the ceiling `pingFailureCount` increments by exactly 1 and
the failing target's address appears in the logged warning; at the ceiling
the cycle escalates, the failing address appears in the logged error, and
the shutdown trigger receives the fixed reason `NOHOST`. -/
theorem ping_cycle_failure (s : St) (results : List (String × Bool))
    (addr : String) (hf : cycleFailure results = some addr) :
    (s.pingFailureCount < s.pingFailureMax →
      (pingHosts results s).1.pingFailureCount = s.pingFailureCount + 1 ∧
      (pingHosts results s).1.teardownCount = s.teardownCount ∧
      (pingHosts results s).1.logs =
        s.logs ++ [pingWarn addr (s.pingFailureCount + 1)] ∧
      addr.data <:+: (pingWarn addr (s.pingFailureCount + 1)).data) ∧
    (s.pingFailureMax ≤ s.pingFailureCount → s.waitingForExit = false →
      (pingHosts results s).1.triggers = s.triggers ++ ["NOHOST"] ∧
      (pingHosts results s).1.logs =
        s.logs ++ ["Error connecting to " ++ addr] ∧
      addr.data <:+: ("Error connecting to " ++ addr).data) := by
  constructor
  · intro h
    refine ⟨?_, ?_, ?_, ?_⟩
    · simp [pingHosts, hf, h]
    · simp [pingHosts, hf, h]
    · simp [pingHosts, hf, h]
    · exact ⟨"Unable to ping ".data,
        (" - " ++ toString (s.pingFailureCount + 1) ++ " attempts - retying in "
          ++ toString (2000 * (s.pingFailureCount + 1) / 1000) ++ "s...").data,
        by simp [pingWarn, String.data_append]⟩
  · intro h hw
    refine ⟨?_, ?_, ?_⟩
    · simp [pingHosts, hf, Nat.not_lt.mpr h, closeGracefully, hw]
    · simp [pingHosts, hf, Nat.not_lt.mpr h, closeGracefully, hw]
    · exact ⟨"Error connecting to ".data, [], by simp [String.data_append]⟩

/-- Witness for C6: from the fresh state, a cycle over three targets in
which two fail increments the shared counter to exactly 1 (not 2), and the
first failing address `a:1` appears in the logged warning. -/
theorem ping_cycle_failure_witness :
    (pingHosts [("a:1", false), ("b:2", true), ("c:3", false)] initSt).1.pingFailureCount
      = 1 ∧
    (pingHosts [("a:1", false), ("b:2", true), ("c:3", false)] initSt).1.logs
      = [pingWarn "a:1" 1] ∧
    "a:1".data <:+: (pingWarn "a:1" 1).data := by
  have h := (ping_cycle_failure initSt [("a:1", false), ("b:2", true), ("c:3", false)]
      "a:1" (by decide)).1 (by decide)
  exact ⟨h.1, by simpa using h.2.2.1, h.2.2.2⟩

/-- The loader state after `chain.ping(['a:1', 'b:2'], {failureMax: 2})` on
a fresh loader (the scenario of the spec's §8 test case). -/
def pingCfg : St :=
  match chainPing (.arr ["a:1", "b:2"]) (some ⟨some 2, none⟩) initSt with
  | .ok s => s
  | .error _ => initSt

/-- C6 (counterexample) — in the spec's own scenario (targets `a:1`, `b:2`,
`failureMax = 2`, target `a:1` unreachable on every attempt), when the
monitor escalates, the reason passed to the shutdown trigger is the fixed
string `NOHOST`; the failing target's identity `a:1` is not carried into
it. -/
theorem ping_escalation_reason_counterexample :
    (pingRun [("a:1", false), ("b:2", true)] 3 pingCfg).triggers = ["NOHOST"] ∧
    ¬ ("a:1".data <:+: "NOHOST".data) := by
  constructor
  · rfl
  · decide

/-- Modelled from the spec: `utils.seqPromise(promiseOrder, iterator)`
(src/lib/utils.js is not among the sources). Per the spec, `run()`
"executes registered actions strictly in registration order, awaiting each
to completion before starting the next" and "aborts immediately (does not
run subsequent actions)" at the first failure. `outcome` gives each named
action's result; the function returns the names actually started, in
order, and whether all of them succeeded. -/
def runActions (outcome : String → Bool) : List String → List String × Bool
  | [] => ([], true)
  | n :: rest =>
      if outcome n then
        let r := runActions outcome rest
        (n :: r.1, r.2)
      else ([n], false)

/-- `chain.done(cb)` (lines 250-267): runs the registered startup actions
sequentially through `seqPromise`; on success invokes the ready callback;
on any failure logs the error and calls `exitProcess('START')` (raising
`waitingForExit`), without invoking `closeGracefully`. Returns the names
started, the exit code requested (none on success), and the final state. -/
def done (outcome : String → Bool) (s : St) : List String × Option Nat × St :=
  let r := runActions outcome s.promiseOrder
  if r.2 then (r.1, none, s)
  else (r.1, some (exitCode "START"), { s with waitingForExit := true })

theorem runActions_all_ok (outcome : String → Bool) :
    ∀ l : List String, (∀ y ∈ l, outcome y = true) →
      runActions outcome l = (l, true) := by
  intro l
  induction l with
  | nil => intro _; rfl
  | cons a rest ih =>
      intro h
      have ha : outcome a = true := h a (by simp)
      simp [runActions, ha, ih (fun y hy => h y (by simp [hy]))]

theorem runActions_fail_fast (outcome : String → Bool) (x : String)
    (hx : outcome x = false) :
    ∀ (pre post : List String), (∀ y ∈ pre, outcome y = true) →
      runActions outcome (pre ++ x :: post) = (pre ++ [x], false) := by
  intro pre
  induction pre with
  | nil => intro post _; simp [runActions, hx]
  | cons a rest ih =>
      intro post h
      have ha : outcome a = true := h a (by simp)
      simp [runActions, ha, ih post (fun y hy => h y (by simp [hy]))]

/-- C3 — the sequencer runs the registered actions strictly in registration
order: when every action up to the first failing one `x` succeeds, exactly
the actions before `x` and `x` itself are started (none after), the run
requests process exit with the non-success code 1 (`exitProcess('START')`),
and the shutdown coordinator is not invoked — no teardown is performed and
no teardown closure runs; a run in which every action succeeds starts all
of them in registration order and requests no exit. -/
theorem done_fail_fast (outcome : String → Bool) (s : St) (pre : List String)
    (x : String) (post : List String)
    (horder : s.promiseOrder = pre ++ x :: post)
    (hpre : ∀ y ∈ pre, outcome y = true) (hx : outcome x = false) :
    done outcome s = (pre ++ [x], some 1, { s with waitingForExit := true }) ∧
    (done outcome s).2.2.teardownCount = s.teardownCount ∧
    (done outcome s).2.2.ranActions = s.ranActions ∧
    exitCode "START" = 1 ∧
    (∀ t : St, (∀ y ∈ t.promiseOrder, outcome y = true) →
      done outcome t = (t.promiseOrder, none, t)) := by
  have hrun : runActions outcome s.promiseOrder = (pre ++ [x], false) := by
    rw [horder]
    exact runActions_fail_fast outcome x hx pre post hpre
  have hstart : exitCode "START" = 1 := by decide
  have hdone : done outcome s =
      (pre ++ [x], some 1, { s with waitingForExit := true }) := by
    simp [done, hrun, hstart]
  refine ⟨hdone, by simp [hdone], by simp [hdone], hstart, ?_⟩
  intro t ht
  simp [done, runActions_all_ok outcome t.promiseOrder ht]

/-- The loader state after `chain.cache(url).amq(opts).express(app)` on a
fresh loader: three startup actions registered in that order. -/
def seqSt : St :=
  match chainCache (.str "redis://h") initSt with
  | .error _ => initSt
  | .ok s1 =>
      match chainAmq .obj s1 with
      | .error _ => initSt
      | .ok s2 =>
          match chainExpress .fn none s2 with
          | .error _ => initSt
          | .ok s3 => s3

/-- Witness for C3: with `cache`, `amq`, `express` registered in that order
and the `amq` action failing, exactly `cache` then `amq` start, the run
requests exit code 1, and no teardown ran. -/
theorem done_fail_fast_witness :
    seqSt.promiseOrder = ["cache", "amq", "express"] ∧
    done (fun y => !(y == "amq")) seqSt =
      (["cache", "amq"], some 1, { seqSt with waitingForExit := true }) ∧
    (done (fun y => !(y == "amq")) seqSt).2.2.teardownCount = 0 := by
  have h := done_fail_fast (fun y => !(y == "amq")) seqSt ["cache"] "amq"
    ["express"] (by decide) (by decide) (by decide)
  refine ⟨by decide, h.1, ?_⟩
  rw [h.2.1]
  rfl

/-- One teardown closure as raced by `closeGracefully` (lines 93-108): the
moment (ms after the trigger) at which its promise settles, and whether it
fulfils (`ok = true`) or rejects. -/
structure Settling where
  time : Nat
  ok : Bool
  deriving DecidableEq, Repr

/-- The hard shutdown deadline armed on line 104: 10 s. -/
def gracePeriod : Nat := 10000

/-- `Promise.all(actions)` fulfils iff every closure fulfils. -/
def allOk (cs : List Settling) : Bool := cs.all (fun c => c.ok)

/-- The time at which the last closure settles (when `Promise.all` can
fulfil). -/
def settleAll (cs : List Settling) : Nat :=
  (cs.map (fun c => c.time)).foldr max 0

/-- The race on lines 93-108: if every teardown closure fulfils and the
last settles before the 10 s deadline, the `.then` branch runs
`exitProcess(signal)` at that moment; otherwise (`Promise.all` rejected —
its `.catch` only logs — or the deadline elapsed first) the only exit is
the force timer, `exitProcess('FORCE')` at the deadline. Returns the exit
time and the exit code. -/
def shutdownExit (signal : String) (cs : List Settling) : Nat × Nat :=
  if allOk cs && decide (settleAll cs < gracePeriod)
  then (settleAll cs, exitCode signal)
  else (gracePeriod, exitCode "FORCE")

/-- C4 (amended) — once shutdown is triggered the process always exits
within the 10 s deadline: if every teardown closure fulfils before the
deadline, the exit status is derived from the triggering reason (a reason
matching `/^SIG/` exits 0, any other exits 1); if any closure rejects, or
the deadline elapses first, the process force-exits at the deadline with
failure status 1 — so a failing teardown closure never prevents the
process from exiting, but it does divert a signal-initiated shutdown onto
the forced path. -/
theorem shutdown_bounded (signal : String) (cs : List Settling) :
    (shutdownExit signal cs).1 ≤ gracePeriod ∧
    (allOk cs = true → settleAll cs < gracePeriod →
      shutdownExit signal cs = (settleAll cs, exitCode signal)) ∧
    (allOk cs = false → shutdownExit signal cs = (gracePeriod, 1)) ∧
    (gracePeriod ≤ settleAll cs → shutdownExit signal cs = (gracePeriod, 1)) ∧
    ("SIG".data.isPrefixOf signal.data = true → exitCode signal = 0) ∧
    ("SIG".data.isPrefixOf signal.data = false → exitCode signal = 1) := by
  have hforce : exitCode "FORCE" = 1 := by decide
  refine ⟨?_, ?_, ?_, ?_, ?_, ?_⟩
  · by_cases h : allOk cs && decide (settleAll cs < gracePeriod)
    · have := of_decide_eq_true (Bool.and_elim_right h)
      simp [shutdownExit, h]
      omega
    · simp [shutdownExit, h]
  · intro h1 h2
    simp [shutdownExit, h1, h2]
  · intro h1
    simp [shutdownExit, h1, hforce]
  · intro h1
    have : ¬ settleAll cs < gracePeriod := by omega
    simp [shutdownExit, this, hforce]
  · intro h
    simp [exitCode, h]
  · intro h
    simp [exitCode, h]

/-- Witness for C4: a clean `SIGTERM` shutdown whose two closures settle at
3 and 7 ms exits at 7 ms with status 0; with reason `NODB` it exits with
status 1; and a shutdown whose closure only settles at 20 s force-exits at
the 10 s deadline with status 1. -/
theorem shutdown_bounded_witness :
    shutdownExit "SIGTERM" [⟨3, true⟩, ⟨7, true⟩] = (7, 0) ∧
    shutdownExit "NODB" [⟨3, true⟩, ⟨7, true⟩] = (7, 1) ∧
    shutdownExit "SIGTERM" [⟨20000, true⟩] = (10000, 1) ∧
    (shutdownExit "SIGTERM" [⟨20000, true⟩]).1 ≤ gracePeriod := by
  have h1 := (shutdown_bounded "SIGTERM" [⟨3, true⟩, ⟨7, true⟩]).2.1
    (by decide) (by decide)
  have h2 := (shutdown_bounded "NODB" [⟨3, true⟩, ⟨7, true⟩]).2.1
    (by decide) (by decide)
  have h3 := (shutdown_bounded "SIGTERM" [⟨20000, true⟩]).2.2.2.1 (by decide)
  have h4 := (shutdown_bounded "SIGTERM" [⟨20000, true⟩]).1
  exact ⟨h1.trans (by decide), h2.trans (by decide), h3.trans (by decide), h4⟩

/-- C4 (counterexample) — the triggering reason is the signal `SIGINT`
(which would yield exit status 0) and the single teardown closure settles
immediately — but by rejecting. Every closure has settled well before the
10 s deadline, yet the success branch never runs: the process exits only
at the deadline, with failure status 1 instead of the reason-derived 0. -/
theorem shutdown_settled_reject_counterexample :
    settleAll [⟨0, false⟩] < gracePeriod ∧
    exitCode "SIGINT" = 0 ∧
    shutdownExit "SIGINT" [⟨0, false⟩] = (gracePeriod, 1) := by
  refine ⟨by decide, by decide, by decide⟩

end ServiceLoader
